import Mathlib

/-!
Shallow embedding of the FunASR CPU engine (src/src/funasr_engine.{h,cpp},
src/src/utils.h) and proofs about the spec's claims.

Modelling conventions:
* C++ `double`/`float` arithmetic is embedded as exact rational arithmetic (ℚ).
* Wall-clock timers (`Timer::ElapsedMs`) are not modelled; every
  `inference_time_ms` is 0 in the model.
* The pybind11 backend models (`generate` calls on the four models) are
  oracles returning `Except String _`; a `.error` value models a thrown
  exception at that call site.  A C++ `catch` block corresponds to the
  `.error` branch of a `match` in the model.
* `std::map<std::string, py::object>` caches are embedded as association
  lists `List (String × Nat)`; only emptiness and replacement matter to the
  orchestration code.
* The concurrent fork/join in `TwoPassRecognize` (std::async on streaming and
  VAD) is modelled sequentially: the two calls mutate disjoint session fields,
  so the joined state is order-independent.  The detached refinement thread is
  modelled by returning the snapshot it is launched with (`refineTask`) and by
  a separate function `DetachedRefineTask` for the task body.
-/

namespace FunASR

/-- Opaque backend cache blob (std::map<std::string, py::object>). -/
abbrev Cache : Type := List (String × Nat)

/-- Recognition result (funasr_engine.h:46-56), defaults mirror the C++
member initializers. -/
structure RecognitionResult where
  text : String := ""
  is_final : Bool := false
  inference_time_ms : ℚ := 0
  is_online_result : Bool := false
  is_offline_result : Bool := false
deriving DecidableEq, Repr

/-- `RecognitionResult::IsEmpty` (funasr_engine.h:55). -/
def RecognitionResult.IsEmpty (r : RecognitionResult) : Bool := r.text.isEmpty

/-- VAD result (funasr_engine.h:61-69), defaults mirror the C++ member
initializers. -/
structure VADResult where
  segments : List (Int × Int) := []
  speech_start_ms : Int := -1
  speech_end_ms : Int := -1
  inference_time_ms : ℚ := 0
  has_speech : Bool := false
deriving DecidableEq, Repr

/-- `VADResult::HasValidSegments` (funasr_engine.h:68). -/
def VADResult.HasValidSegments (v : VADResult) : Bool := ¬ v.segments.isEmpty

/-- Two-pass session state (funasr_engine.h:75-106), defaults mirror the C++
member initializers (chunk_size = {0,10,5}, lookbacks 4/1, interval 10). -/
structure TwoPassSession where
  streaming_cache : Cache := ([] : List (String × Nat))
  vad_cache : Cache := ([] : List (String × Nat))
  punc_cache : Cache := ([] : List (String × Nat))
  audio_buffer : List ℚ := []
  current_segment : List ℚ := []
  is_speaking : Bool := false
  is_final : Bool := false
  vad_pre_idx : Int := 0
  chunk_size : List Int := [0, 10, 5]
  encoder_chunk_look_back : Int := 4
  decoder_chunk_look_back : Int := 1
  chunk_interval : Int := 10
deriving DecidableEq

/-- `TwoPassSession::Reset` (funasr_engine.h:96-105): clears the caches, the
audio buffers, the flags and the VAD index; the streaming configuration
fields are not touched. -/
def TwoPassSession.Reset (s : TwoPassSession) : TwoPassSession :=
  { s with
    streaming_cache := ([] : List (String × Nat))
    vad_cache := ([] : List (String × Nat))
    punc_cache := ([] : List (String × Nat))
    audio_buffer := []
    current_segment := []
    is_speaking := false
    is_final := false
    vad_pre_idx := 0 }

/-- Performance metrics (utils.h:257-279), defaults mirror the C++ member
initializers (all zero). -/
structure PerformanceMetrics where
  streaming_rtf : ℚ := 0
  offline_rtf : ℚ := 0
  two_pass_rtf : ℚ := 0
  end_to_end_latency_ms : ℚ := 0
  gpu_memory_gb : ℚ := 0
  online_latency_ms : ℚ := 0
  offline_refinement_ms : ℚ := 0
  vad_processing_ms : ℚ := 0
  punctuation_ms : ℚ := 0
  concurrent_sessions : Int := 0
  total_audio_processed_hours : ℚ := 0
  total_requests : ℕ := 0
  success_requests : ℕ := 0
  test_files_count : Int := 0
deriving DecidableEq

/-- `PerformanceMetrics::GetSuccessRate` (utils.h:280-282). -/
def PerformanceMetrics.GetSuccessRate (m : PerformanceMetrics) : ℚ :=
  if 0 < m.total_requests then
    ((m.success_requests : ℚ) / (m.total_requests : ℚ)) * 100
  else 100

/-- `FunASREngine::UpdateMetrics` (funasr_engine.cpp:1233-1255): per-field
merge under the metrics mutex.  Each `if` mirrors one line of the source;
note that `gpu_memory_gb` is assigned unconditionally (funasr_engine.cpp:1244)
and that `offline_refinement_ms`, `vad_processing_ms`, `punctuation_ms`,
`total_requests` and `success_requests` are never touched. -/
def UpdateMetrics (cur incoming : PerformanceMetrics) : PerformanceMetrics :=
  { cur with
    streaming_rtf :=
      if 0 < incoming.streaming_rtf then incoming.streaming_rtf else cur.streaming_rtf
    offline_rtf :=
      if 0 < incoming.offline_rtf then incoming.offline_rtf else cur.offline_rtf
    two_pass_rtf :=
      if 0 < incoming.two_pass_rtf then incoming.two_pass_rtf else cur.two_pass_rtf
    end_to_end_latency_ms :=
      if 0 < incoming.end_to_end_latency_ms then incoming.end_to_end_latency_ms
      else cur.end_to_end_latency_ms
    online_latency_ms :=
      if 0 < incoming.online_latency_ms then incoming.online_latency_ms
      else cur.online_latency_ms
    concurrent_sessions :=
      if 0 < incoming.concurrent_sessions then incoming.concurrent_sessions
      else cur.concurrent_sessions
    total_audio_processed_hours :=
      if 0 < incoming.total_audio_processed_hours then
        cur.total_audio_processed_hours + incoming.total_audio_processed_hours
      else cur.total_audio_processed_hours
    test_files_count :=
      if 0 < incoming.test_files_count then incoming.test_files_count
      else cur.test_files_count
    gpu_memory_gb := incoming.gpu_memory_gb }

/-- One iteration of the segment loop in `FunASREngine::ParseVADResult`
(funasr_engine.cpp:850-864): append the pair, record the first non-(-1)
start, record every non-(-1) end. -/
def vadStep (acc : VADResult) (p : Int × Int) : VADResult :=
  { acc with
    segments := acc.segments ++ [p]
    speech_start_ms :=
      if p.1 ≠ -1 ∧ acc.speech_start_ms = -1 then p.1 else acc.speech_start_ms
    speech_end_ms := if p.2 ≠ -1 then p.2 else acc.speech_end_ms }

/-- `FunASREngine::ParseVADResult` (funasr_engine.cpp:837-875).  The pybind
plumbing (list-of-dicts with a "value" key, pairs of length ≥ 2) is
abstracted: the input is the list of (start, end) pairs extracted from the
backend result. -/
def ParseVADResult (segs : List (Int × Int)) (inference_time_ms : ℚ) : VADResult :=
  let parsed := segs.foldl vadStep { inference_time_ms := inference_time_ms }
  { parsed with has_speech := ¬ parsed.segments.isEmpty }

/-- Loop body of `FunASREngine::ResampleAudio` (funasr_engine.cpp:300-310)
for output index `i`, in exact rational arithmetic.  `size_t` casts of the
non-negative doubles become `Nat.floor`. -/
def resampleSample (audio : List ℚ) (from_rate to_rate : ℕ) (i : ℕ) : ℚ :=
  let rr : ℚ := (to_rate : ℚ) / (from_rate : ℚ)
  let src_index : ℚ := (i : ℚ) / rr
  let idx : ℕ := ⌊src_index⌋₊
  if idx + 1 < audio.length then
    let frac : ℚ := src_index - (idx : ℚ)
    audio.getD idx 0 * (1 - frac) + audio.getD (idx + 1) 0 * frac
  else
    audio.getLastD 0

/-- `FunASREngine::ResampleAudio` (funasr_engine.cpp:289-318): identity when
the rates agree, otherwise linear interpolation to
`⌊size * to_rate/from_rate⌋` samples. -/
def ResampleAudio (audio : List ℚ) (from_rate to_rate : ℕ) : List ℚ :=
  if from_rate = to_rate then audio
  else
    let rr : ℚ := (to_rate : ℚ) / (from_rate : ℚ)
    let new_size : ℕ := ⌊(audio.length : ℚ) * rr⌋₊
    (List.range new_size).map (resampleSample audio from_rate to_rate)

/-- Shard construction in `FunASREngine::TestConcurrentPerformance`
(funasr_engine.cpp:1047-1064): `files_per_worker = max(1, size/num_workers)`,
worker `i` gets the contiguous range `[i*fpw, min(i*fpw+fpw, size))`. -/
def partitionFiles (files : List String) (num_workers : ℕ) : List (List String) :=
  let files_per_worker := max 1 (files.length / num_workers)
  (List.range num_workers).map (fun i =>
    let start_idx := i * files_per_worker
    let end_idx := min (start_idx + files_per_worker) files.length
    (files.drop start_idx).take (end_idx - start_idx))

/-- RTF aggregation in `FunASREngine::TestConcurrentPerformance`
(funasr_engine.cpp:1074-1086): sum and count only the worker results with a
strictly positive `streaming_rtf`; average them when the count is non-zero,
otherwise the field keeps its zero default; `concurrent_sessions` is set to
the worker count. -/
def aggregateConcurrent (worker_results : List PerformanceMetrics)
    (num_workers : Int) : PerformanceMetrics :=
  let pos := (worker_results.map (fun w => w.streaming_rtf)).filter
    (fun r => decide (0 < r))
  let base : PerformanceMetrics := {}
  let base := if 0 < pos.length then
      { base with streaming_rtf := pos.sum / (pos.length : ℚ) }
    else base
  { base with concurrent_sessions := num_workers }

/-- Engine configuration fields relevant to the embedded code paths
(funasr_engine.h:117-182). -/
structure Config where
  enable_audio_resampling : Bool := true
  max_concurrent_sessions : ℕ := 32
deriving DecidableEq

/-- Backend oracles standing for the four pybind11 `generate` entry points.
An `.error` outcome models a thrown C++ exception at that call site; the
payloads are the already-parsed results (`ParseRecognitionResult` extracts a
single text, the VAD result a list of (start, end) pairs). -/
structure Backend where
  streamingGenerate : List ℚ → Bool → Cache → Except String (String × Cache)
  offlineGenerate : List ℚ → Except String String
  vadGenerate : List ℚ → Cache → Except String (List (Int × Int) × Cache)
  puncGenerate : String → Cache → Except String (String × Cache)

/-- `FunASREngine::DetectVoiceActivity` (funasr_engine.cpp:695-742).  The
cache is sent to the backend only when non-empty (`kwargs["cache"]` is set
only then) and written back only in that case; a backend exception is caught
(funasr_engine.cpp:736-739) leaving the default-constructed `VADResult` and
the cache untouched. -/
def DetectVoiceActivity (vadGen : List ℚ → Cache → Except String (List (Int × Int) × Cache))
    (audio_data : List ℚ) (vad_cache : Cache) : VADResult × Cache :=
  match vadGen audio_data vad_cache with
  | .error _ => ({}, vad_cache)
  | .ok pr =>
      let cache' := if ¬ vad_cache.isEmpty then pr.2 else vad_cache
      (ParseVADResult pr.1 0, cache')

/-- `FunASREngine::AddPunctuation` (funasr_engine.cpp:747-801): empty text is
returned as-is; the cache round-trip follows the same non-empty rule as VAD;
a backend exception is caught (funasr_engine.cpp:795-798) and the original
text returned. -/
def AddPunctuation (puncGen : String → Cache → Except String (String × Cache))
    (text : String) (punc_cache : Cache) : String × Cache :=
  if text.isEmpty then (text, punc_cache)
  else
    match puncGen text punc_cache with
    | .error _ => (text, punc_cache)
    | .ok pr =>
        let cache' := if ¬ punc_cache.isEmpty then pr.2 else punc_cache
        (pr.1, cache')

/-- Per-segment loop of the VAD branch of `FunASREngine::OfflineRecognize`
(funasr_engine.cpp:371-396): ms offsets are scaled by 16000/1000 with C++
truncating integer division; a segment whose sample range fails
`start ≥ 0 ∧ end ≤ size ∧ start < end` is skipped; a backend exception
propagates out of the loop (it is only caught at funasr_engine.cpp:407).
Only non-empty per-segment texts are collected, in order. -/
def segmentLoop (asr : List ℚ → Except String String) (audio_data : List ℚ) :
    List (Int × Int) → Except String (List String)
  | [] => .ok []
  | p :: rest =>
      let start_sample : Int := Int.tdiv (p.1 * 16000) 1000
      let end_sample : Int := Int.tdiv (p.2 * 16000) 1000
      if 0 ≤ start_sample ∧ end_sample ≤ (audio_data.length : Int) ∧
          start_sample < end_sample then
        match asr ((audio_data.drop start_sample.toNat).take
            (end_sample - start_sample).toNat) with
        | .error err => .error err
        | .ok t =>
            match segmentLoop asr audio_data rest with
            | .error err => .error err
            | .ok ts => .ok (if t.isEmpty then ts else t :: ts)
      else segmentLoop asr audio_data rest

/-- Result of one `OfflineRecognize` call: the recognition result, the
metrics after the call, and how many times the VAD model was invoked
(instrumentation used to settle claim C2). -/
structure OfflineRun where
  result : RecognitionResult
  metrics : PerformanceMetrics
  vadCalls : ℕ
deriving DecidableEq

/-- `FunASREngine::OfflineRecognize` (funasr_engine.cpp:329-472).
Control flow mirrors the source:
* uninitialized engine returns the default result (funasr_engine.cpp:335-338);
* optional resampling 24000→16000 (funasr_engine.cpp:344-352);
* `enable_vad` is overwritten with `false` (funasr_engine.cpp:357) before the
  5-second gate, so the VAD branch below it is dead code; it is still
  embedded faithfully: inside it, a backend failure of the per-segment ASR is
  caught (funasr_engine.cpp:407-411) falling back to whole-buffer
  recognition, as does an empty segment list (funasr_engine.cpp:403-406);
* whole-buffer recognition runs when the VAD flag is off or the joined text
  is empty; its backend failure is caught and returns the default result
  early, skipping the metrics update (funasr_engine.cpp:424-428);
* punctuation restoration on non-empty text (funasr_engine.cpp:432-440);
* result tagging `is_final = is_offline_result = true`
  (funasr_engine.cpp:442-445) and the metrics update under the lock
  (funasr_engine.cpp:448-457). -/
def OfflineRecognize (B : Backend) (cfg : Config) (init : Bool)
    (audio_input : List ℚ) (enable_vad : Bool) (enable_punctuation : Bool)
    (metrics : PerformanceMetrics) : OfflineRun :=
  if ¬ init then { result := {}, metrics := metrics, vadCalls := 0 }
  else
    let audio_data :=
      if cfg.enable_audio_resampling ∧ 0 < audio_input.length then
        ResampleAudio audio_input 24000 16000
      else audio_input
    -- funasr_engine.cpp:357 — the parameter is overwritten before the gate
    let ev : Bool := false
    let vadPhase : String × ℕ × Bool :=
      if ev ∧ 16000 * 5 < audio_data.length then
        let vr := (DetectVoiceActivity B.vadGenerate audio_data
          ([] : List (String × Nat))).1
        if vr.HasValidSegments then
          match segmentLoop B.offlineGenerate audio_data vr.segments with
          | .error _ => ("", 1, false)
          | .ok ts => (String.intercalate " " ts, 1, true)
        else ("", 1, false)
      else ("", 0, ev)
    let final_text0 := vadPhase.1
    let vadCalls := vadPhase.2.1
    let ev2 := vadPhase.2.2
    let wholeStep : Except String String :=
      if ¬ ev2 ∨ final_text0.isEmpty then B.offlineGenerate audio_data
      else .ok final_text0
    match wholeStep with
    | .error _ => { result := {}, metrics := metrics, vadCalls := vadCalls }
    | .ok ft1 =>
        let ft2 :=
          if enable_punctuation ∧ ¬ ft1.isEmpty then
            (AddPunctuation B.puncGenerate ft1 ([] : List (String × Nat))).1
          else ft1
        let result : RecognitionResult :=
          { text := ft2, is_final := true, is_offline_result := true,
            inference_time_ms := 0 }
        let audioDur : ℚ := (audio_data.length : ℚ) / 16000
        let m1 := { metrics with total_requests := metrics.total_requests + 1 }
        let m2 :=
          if ¬ result.IsEmpty then
            { m1 with
              success_requests := m1.success_requests + 1
              offline_rtf := result.inference_time_ms / (audioDur * 1000)
              total_audio_processed_hours :=
                m1.total_audio_processed_hours + audioDur / 3600 }
          else m1
        { result := result, metrics := m2, vadCalls := vadCalls }

/-- Result of one `StreamingRecognize` call. -/
structure StreamOut where
  result : RecognitionResult
  session : TwoPassSession
  metrics : PerformanceMetrics
deriving DecidableEq

/-- `FunASREngine::StreamingRecognize` (funasr_engine.cpp:483-567).
The cache is sent to the backend only when non-empty and written back only in
that case (funasr_engine.cpp:513-533); on success the result is tagged
`is_online_result = true` with `is_final` mirroring the argument
(funasr_engine.cpp:536-538) and the metrics updated under the lock
(funasr_engine.cpp:540-551); a backend exception is caught
(funasr_engine.cpp:560-564), the default (empty) result is returned and only
the total-request counter is incremented. -/
def StreamingRecognize (gen : List ℚ → Bool → Cache → Except String (String × Cache))
    (init : Bool) (audio_chunk : List ℚ) (session : TwoPassSession)
    (is_final : Bool) (metrics : PerformanceMetrics) : StreamOut :=
  if ¬ init then { result := {}, session := session, metrics := metrics }
  else
    match gen audio_chunk is_final session.streaming_cache with
    | .error _ =>
        { result := {}, session := session,
          metrics := { metrics with total_requests := metrics.total_requests + 1 } }
    | .ok pr =>
        let s1 :=
          if ¬ session.streaming_cache.isEmpty then
            { session with streaming_cache := pr.2 }
          else session
        let result : RecognitionResult :=
          { text := pr.1, inference_time_ms := 0, is_final := is_final,
            is_online_result := true }
        let chunkDur : ℚ := (audio_chunk.length : ℚ) / 16000
        let m1 := { metrics with total_requests := metrics.total_requests + 1 }
        let m2 :=
          if ¬ result.IsEmpty then
            { m1 with
              success_requests := m1.success_requests + 1
              streaming_rtf := result.inference_time_ms / (chunkDur * 1000)
              online_latency_ms := result.inference_time_ms
              total_audio_processed_hours :=
                m1.total_audio_processed_hours + chunkDur / 3600 }
          else m1
        { result := result, session := s1, metrics := m2 }

/-- Result of one `TwoPassRecognize` call: the session after the synchronous
part, the appended results vector, the snapshot handed to a detached
refinement task (`none` when no task was launched), and the metrics. -/
structure TwoPassOut where
  session : TwoPassSession
  results : List RecognitionResult
  refineTask : Option (List ℚ)
  metrics : PerformanceMetrics

/-- Endpoint branch of `FunASREngine::TwoPassRecognize`
(funasr_engine.cpp:651-684): on `speech_end_ms != -1` clear `is_speaking`,
snapshot the audio buffer for the detached task; otherwise set `is_speaking`
on a start signal; in all cases update the 2-pass timing metrics. -/
def twoPassVadBranch (vr : VADResult) (s : TwoPassSession)
    (results : List RecognitionResult) (m : PerformanceMetrics)
    (chunkDur : ℚ) : TwoPassOut :=
  let mEnd := { m with
    two_pass_rtf := 0 / (chunkDur * 1000)
    end_to_end_latency_ms := 0 }
  if vr.speech_end_ms ≠ -1 then
    let s' := { s with is_speaking := false }
    { session := s', results := results, refineTask := some s'.audio_buffer,
      metrics := mEnd }
  else if vr.speech_start_ms ≠ -1 then
    { session := { s with is_speaking := true }, results := results,
      refineTask := none, metrics := mEnd }
  else
    { session := s, results := results, refineTask := none, metrics := mEnd }

/-- `FunASREngine::TwoPassRecognize` (funasr_engine.cpp:611-690): append the
chunk to the session buffer, run streaming recognition and VAD (concurrently
in the source, sequentially here — they mutate disjoint session fields),
append a non-empty streaming result tagged `is_online_result = true`
(funasr_engine.cpp:640-644), record the VAD time, then take the endpoint
branch. -/
def TwoPassRecognize (B : Backend) (init : Bool) (chunk : List ℚ)
    (session : TwoPassSession) (results : List RecognitionResult)
    (metrics : PerformanceMetrics) : TwoPassOut :=
  if ¬ init then
    { session := session, results := results, refineTask := none,
      metrics := metrics }
  else
    let s1 := { session with audio_buffer := session.audio_buffer ++ chunk }
    let so := StreamingRecognize B.streamingGenerate init chunk s1 false metrics
    let results1 :=
      if ¬ so.result.IsEmpty then
        results ++ [{ so.result with is_online_result := true }]
      else results
    let dv := DetectVoiceActivity B.vadGenerate chunk so.session.vad_cache
    let s3 := { so.session with vad_cache := dv.2 }
    let m2 := { so.metrics with vad_processing_ms := dv.1.inference_time_ms }
    twoPassVadBranch dv.1 s3 results1 m2 ((chunk.length : ℚ) / 16000)

/-- Result of one detached refinement task. -/
structure RefineOut where
  session : TwoPassSession
  refined : Option RecognitionResult
  metrics : PerformanceMetrics

/-- Body of the detached refinement thread launched by `TwoPassRecognize`
(funasr_engine.cpp:659-672).  The task body itself has no try/catch: it
relies on `OfflineRecognize` catching backend failures internally
(funasr_engine.cpp:424-428 and 465-469) and returning an empty result, after
which `session.Reset()` is reached as the task's final statement in every
case.  A non-empty result is re-tagged `is_offline_result = is_final = true`
and the refinement time recorded; the result is only logged, never delivered
(it is exposed here as `refined` so its tags can be stated). -/
def DetachedRefineTask (B : Backend) (cfg : Config) (init : Bool)
    (complete_segment : List ℚ) (session : TwoPassSession)
    (metrics : PerformanceMetrics) : RefineOut :=
  let run := OfflineRecognize B cfg init complete_segment false true metrics
  if ¬ run.result.IsEmpty then
    { session := session.Reset
      refined := some { run.result with is_offline_result := true, is_final := true }
      metrics := { run.metrics with offline_refinement_ms := 0 } }
  else
    { session := session.Reset, refined := none, metrics := run.metrics }

/-- Backend identical to `B` except that the offline ASR `generate` call
throws. -/
def errBackend (B : Backend) (e : String) : Backend :=
  { B with offlineGenerate := fun _ => .error e }

/-- Provenance-flag exclusivity: a result is never tagged both online and
offline. -/
def flagsOk (r : RecognitionResult) : Prop :=
  ¬ (r.is_online_result = true ∧ r.is_offline_result = true)

instance (r : RecognitionResult) : Decidable (flagsOk r) := by
  unfold flagsOk
  infer_instance

/-- Concrete aggregate metrics with several non-zero fields. -/
def mAgg : PerformanceMetrics :=
  { streaming_rtf := 1/5, offline_rtf := 3/10, gpu_memory_gb := 5,
    total_audio_processed_hours := 1, vad_processing_ms := 7,
    total_requests := 4, success_requests := 3 }

/-- Concrete all-zero (default-constructed) metrics. -/
def mZero : PerformanceMetrics := {}

/-- Concrete metrics with some strictly positive fields. -/
def mPos : PerformanceMetrics :=
  { streaming_rtf := 1/2, total_audio_processed_hours := 2 }

/-- Concrete file list for the benchmark partition. -/
def files5 : List String := ["a", "b", "c", "d", "e"]

/-- Concrete engine configuration with resampling disabled. -/
def cfg0 : Config := { enable_audio_resampling := false }

/-- Concrete backend whose four generate calls all succeed. -/
def B0 : Backend :=
  { streamingGenerate := fun _ _ _ => .ok ("hi", ([] : List (String × Nat)))
    offlineGenerate := fun _ => .ok "whole"
    vadGenerate := fun _ _ => .ok ([(0, 1000), (1500, 2000)], ([] : List (String × Nat)))
    puncGenerate := fun s c => .ok (s, c) }

/-- Concrete streaming generate oracle that always throws. -/
def genErr : List ℚ → Bool → Cache → Except String (String × Cache) :=
  fun _ _ _ => .error "boom"

/-- Concrete streaming generate oracle that always succeeds. -/
def genOk : List ℚ → Bool → Cache → Except String (String × Cache) :=
  fun _ _ _ => .ok ("hi", ([] : List (String × Nat)))

/-- Concrete 16kHz audio buffer strictly longer than five seconds. -/
def longAudio : List ℚ := List.replicate 80001 0

/-- The refinement result the concrete backend `B0` produces. -/
def refinedR0 : RecognitionResult :=
  { text := "whole", is_final := true, inference_time_ms := 0,
    is_online_result := false, is_offline_result := true }

/-! ## Theorems -/

/-- Accumulator lemma: the fold in `ParseVADResult` records the first
segment start that differs from -1. -/
theorem vadStep_foldl_start (segs : List (Int × Int)) :
    ∀ acc : VADResult, (segs.foldl vadStep acc).speech_start_ms =
      if acc.speech_start_ms = -1 then
        ((segs.find? (fun p => decide (p.1 ≠ -1))).map Prod.fst).getD (-1)
      else acc.speech_start_ms := by
  induction segs with
  | nil =>
      intro acc
      split <;> simp_all
  | cons p rest ih =>
      intro acc
      rw [List.foldl_cons, ih]
      by_cases h1 : p.1 = -1
      · rw [List.find?_cons_of_neg _ (by simp [h1])]
        by_cases h2 : acc.speech_start_ms = -1 <;> simp [vadStep, h1, h2]
      · rw [List.find?_cons_of_pos _ (by simp [h1])]
        by_cases h2 : acc.speech_start_ms = -1 <;> simp [vadStep, h1, h2]

/-- Accumulator lemma: the fold in `ParseVADResult` records the last segment
end that differs from -1. -/
theorem vadStep_foldl_end (segs : List (Int × Int)) :
    ∀ acc : VADResult, (segs.foldl vadStep acc).speech_end_ms =
      ((segs.reverse.find? (fun p => decide (p.2 ≠ -1))).map Prod.snd).getD
        acc.speech_end_ms := by
  induction segs using List.reverseRecOn with
  | nil =>
      intro acc
      simp
  | append_singleton l p ih =>
      intro acc
      rw [List.foldl_append, List.foldl_cons, List.foldl_nil, List.reverse_append,
        List.reverse_singleton, List.singleton_append]
      by_cases hq : p.2 = -1
      · rw [List.find?_cons_of_neg _ (by simp [hq])]
        simp [vadStep, hq, ih]
      · rw [List.find?_cons_of_pos _ (by simp [hq])]
        simp [vadStep, hq]

/-- Accumulator lemma: the fold in `ParseVADResult` appends every pair, in
order. -/
theorem vadStep_foldl_segments (segs : List (Int × Int)) :
    ∀ acc : VADResult, (segs.foldl vadStep acc).segments = acc.segments ++ segs := by
  induction segs with
  | nil =>
      intro acc
      simp
  | cons p rest ih =>
      intro acc
      rw [List.foldl_cons, ih]
      simp [vadStep]

/-- C7: for every segment list parsed from a VAD backend result, the parsed
segments are exactly the input pairs in order, `speech_start_ms` is the start
of the first segment whose start is not -1 (and stays -1 if there is none),
and `speech_end_ms` is the end of the last segment whose end is not -1 (and
stays -1 if there is none), also when several segments arrive in one call. -/
theorem C7_parse_vad_sentinels (segs : List (Int × Int)) (t : ℚ) :
    (ParseVADResult segs t).segments = segs ∧
    (ParseVADResult segs t).speech_start_ms =
      ((segs.find? (fun p => decide (p.1 ≠ -1))).map Prod.fst).getD (-1) ∧
    (ParseVADResult segs t).speech_end_ms =
      ((segs.reverse.find? (fun p => decide (p.2 ≠ -1))).map Prod.snd).getD (-1) := by
  unfold ParseVADResult
  refine ⟨?_, ?_, ?_⟩
  · simp [vadStep_foldl_segments]
  · simpa using vadStep_foldl_start segs { inference_time_ms := t }
  · simpa using vadStep_foldl_end segs { inference_time_ms := t }

/-- C9: `TwoPassSession::Reset` clears the three backend caches, both audio
buffers, the speaking/final flags and the VAD pre-index, while leaving the
per-session streaming configuration fields (`chunk_size`,
`encoder_chunk_look_back`, `decoder_chunk_look_back`, `chunk_interval`)
unchanged. -/
theorem C9_reset_clears_state_keeps_config (s : TwoPassSession) :
    s.Reset.streaming_cache = ([] : List (String × Nat)) ∧
    s.Reset.vad_cache = ([] : List (String × Nat)) ∧
    s.Reset.punc_cache = ([] : List (String × Nat)) ∧
    s.Reset.audio_buffer = [] ∧
    s.Reset.current_segment = [] ∧
    s.Reset.is_speaking = false ∧
    s.Reset.is_final = false ∧
    s.Reset.vad_pre_idx = 0 ∧
    s.Reset.chunk_size = s.chunk_size ∧
    s.Reset.encoder_chunk_look_back = s.encoder_chunk_look_back ∧
    s.Reset.decoder_chunk_look_back = s.decoder_chunk_look_back ∧
    s.Reset.chunk_interval = s.chunk_interval := by
  simp [TwoPassSession.Reset]

/-- C10: `GetSuccessRate` returns (success/total)·100 when any request was
counted and exactly 100 on a fresh snapshot with zero total requests (no
division by zero, no zero rate). -/
theorem C10_success_rate_empty_is_hundred (m : PerformanceMetrics) :
    m.GetSuccessRate =
      if m.total_requests = 0 then 100
      else ((m.success_requests : ℚ) / (m.total_requests : ℚ)) * 100 := by
  unfold PerformanceMetrics.GetSuccessRate
  rcases Nat.eq_zero_or_pos m.total_requests with h | h
  · simp [h]
  · rw [if_pos h, if_neg (Nat.pos_iff_ne_zero.mp h)]

/-- C3 counterexample: the claim says a zero field of the incoming partial
metrics never overwrites a non-zero aggregate field, but `UpdateMetrics`
copies `gpu_memory_gb` unconditionally, so an all-zero partial wipes a
non-zero aggregate `gpu_memory_gb`. -/
theorem C3_counterexample_gpu_overwritten :
    mZero.gpu_memory_gb = 0 ∧ mAgg.gpu_memory_gb = 5 ∧
    (UpdateMetrics mAgg mZero).gpu_memory_gb ≠ mAgg.gpu_memory_gb := by
  refine ⟨rfl, rfl, ?_⟩
  norm_num [UpdateMetrics, mAgg, mZero]

/-- C3 (amended): `UpdateMetrics` merges only strictly-positive incoming
values for the RTF, latency, session-count and file-count fields (a
non-positive incoming value leaves the aggregate field unchanged),
`total_audio_processed_hours` is added to the aggregate when strictly
positive, the counters and the per-stage millisecond fields are never
touched — but `gpu_memory_gb` is overwritten unconditionally. -/
theorem C3_update_merge_amended (cur incoming : PerformanceMetrics) :
    (incoming.streaming_rtf ≤ 0 →
      (UpdateMetrics cur incoming).streaming_rtf = cur.streaming_rtf) ∧
    (0 < incoming.streaming_rtf →
      (UpdateMetrics cur incoming).streaming_rtf = incoming.streaming_rtf) ∧
    (incoming.offline_rtf ≤ 0 →
      (UpdateMetrics cur incoming).offline_rtf = cur.offline_rtf) ∧
    (0 < incoming.offline_rtf →
      (UpdateMetrics cur incoming).offline_rtf = incoming.offline_rtf) ∧
    (incoming.two_pass_rtf ≤ 0 →
      (UpdateMetrics cur incoming).two_pass_rtf = cur.two_pass_rtf) ∧
    (0 < incoming.two_pass_rtf →
      (UpdateMetrics cur incoming).two_pass_rtf = incoming.two_pass_rtf) ∧
    (incoming.end_to_end_latency_ms ≤ 0 →
      (UpdateMetrics cur incoming).end_to_end_latency_ms = cur.end_to_end_latency_ms) ∧
    (0 < incoming.end_to_end_latency_ms →
      (UpdateMetrics cur incoming).end_to_end_latency_ms = incoming.end_to_end_latency_ms) ∧
    (incoming.online_latency_ms ≤ 0 →
      (UpdateMetrics cur incoming).online_latency_ms = cur.online_latency_ms) ∧
    (0 < incoming.online_latency_ms →
      (UpdateMetrics cur incoming).online_latency_ms = incoming.online_latency_ms) ∧
    (incoming.concurrent_sessions ≤ 0 →
      (UpdateMetrics cur incoming).concurrent_sessions = cur.concurrent_sessions) ∧
    (0 < incoming.concurrent_sessions →
      (UpdateMetrics cur incoming).concurrent_sessions = incoming.concurrent_sessions) ∧
    (incoming.test_files_count ≤ 0 →
      (UpdateMetrics cur incoming).test_files_count = cur.test_files_count) ∧
    (0 < incoming.test_files_count →
      (UpdateMetrics cur incoming).test_files_count = incoming.test_files_count) ∧
    (incoming.total_audio_processed_hours ≤ 0 →
      (UpdateMetrics cur incoming).total_audio_processed_hours =
        cur.total_audio_processed_hours) ∧
    (0 < incoming.total_audio_processed_hours →
      (UpdateMetrics cur incoming).total_audio_processed_hours =
        cur.total_audio_processed_hours + incoming.total_audio_processed_hours) ∧
    (UpdateMetrics cur incoming).gpu_memory_gb = incoming.gpu_memory_gb ∧
    (UpdateMetrics cur incoming).offline_refinement_ms = cur.offline_refinement_ms ∧
    (UpdateMetrics cur incoming).vad_processing_ms = cur.vad_processing_ms ∧
    (UpdateMetrics cur incoming).punctuation_ms = cur.punctuation_ms ∧
    (UpdateMetrics cur incoming).total_requests = cur.total_requests ∧
    (UpdateMetrics cur incoming).success_requests = cur.success_requests := by
  refine ⟨fun h => ?_, fun h => ?_, fun h => ?_, fun h => ?_, fun h => ?_, fun h => ?_,
    fun h => ?_, fun h => ?_, fun h => ?_, fun h => ?_, fun h => ?_, fun h => ?_,
    fun h => ?_, fun h => ?_, fun h => ?_, fun h => ?_, rfl, rfl, rfl, rfl, rfl, rfl⟩ <;>
    simp only [UpdateMetrics] <;>
    first
      | rw [if_neg (not_lt.mpr h)]
      | rw [if_pos h]

/-- C3 witness: the amended merge behaviour at concrete inputs — a positive
incoming `streaming_rtf` replaces the aggregate, a zero incoming one leaves
it, and positive processed-audio hours add up. -/
theorem C3_update_merge_amended_witness :
    ((0:ℚ) < mPos.streaming_rtf ∧
      (UpdateMetrics mAgg mPos).streaming_rtf = mPos.streaming_rtf) ∧
    (mZero.streaming_rtf ≤ 0 ∧
      (UpdateMetrics mAgg mZero).streaming_rtf = mAgg.streaming_rtf) ∧
    (0:ℚ) < mPos.total_audio_processed_hours ∧
    (UpdateMetrics mAgg mPos).total_audio_processed_hours =
      mAgg.total_audio_processed_hours + mPos.total_audio_processed_hours := by
  obtain ⟨_, h2, _, _, _, _, _, _, _, _, _, _, _, _, _, h16, _⟩ :=
    C3_update_merge_amended mAgg mPos
  obtain ⟨g1, _⟩ := C3_update_merge_amended mAgg mZero
  exact ⟨⟨by norm_num [mPos], h2 (by norm_num [mPos])⟩,
    ⟨by norm_num [mZero], g1 (by norm_num [mZero])⟩,
    by norm_num [mPos], h16 (by norm_num [mPos])⟩

/-- Join of successive fixed-width windows: the shards worker 0..k-1 receive
are exactly the first `min length (k·f)` files, in order. -/
theorem windows_join (files : List String) (f : ℕ) (k : ℕ) :
    ((List.range k).map (fun i =>
        (files.drop (i * f)).take (min (i * f + f) files.length - i * f))).flatten =
      files.take (min files.length (k * f)) := by
  induction k with
  | zero => simp
  | succ k ih =>
      rw [List.range_succ, List.map_append, List.flatten_append, ih]
      simp only [List.map_cons, List.map_nil, List.flatten_cons, List.flatten_nil,
        List.append_nil]
      by_cases hL : files.length ≤ k * f
      · have h1 : min files.length (k * f) = files.length := by omega
        have h2 : min files.length ((k + 1) * f) = files.length := by
          have : k * f ≤ (k + 1) * f := by
            have := Nat.mul_le_mul_right f (Nat.le_succ k)
            simpa [Nat.succ_mul] using this
          omega
        rw [h1, h2, List.take_length, List.drop_eq_nil_of_le hL]
        simp
      · push_neg at hL
        have h1 : min files.length (k * f) = k * f := by omega
        have h2 : min files.length ((k + 1) * f) =
            k * f + (min (k * f + f) files.length - k * f) := by
          have : (k + 1) * f = k * f + f := by ring
          omega
        rw [h1, h2, List.take_add]

/-- Filtering out the non-positive worker RTF values first does not change
the positive-RTF value list extracted by the aggregation. -/
theorem rtf_filter_map (ws : List PerformanceMetrics) :
    ((ws.filter (fun x => decide (0 < x.streaming_rtf))).map
        (fun w => w.streaming_rtf)).filter (fun r => decide (0 < r)) =
      (ws.map (fun w => w.streaming_rtf)).filter (fun r => decide (0 < r)) := by
  induction ws with
  | nil => rfl
  | cons x rest ih =>
      by_cases hx : 0 < x.streaming_rtf <;>
        simp [List.filter_cons, hx, ih]

/-- C4 counterexample: the claim says every file is assigned to exactly one
worker, with the remainder going to the last shard; with 5 files and 2
workers the shard width is max(1, 5/2) = 2, so the shards are ["a","b"] and
["c","d"] and the remainder file "e" is assigned to no worker at all. -/
theorem C4_counterexample_file_dropped :
    files5.length = 5 ∧ (partitionFiles files5 2).length = 2 ∧
    files5.contains "e" = true ∧
    (partitionFiles files5 2).flatten.contains "e" = false := by
  refine ⟨rfl, rfl, rfl, ?_⟩
  decide

/-- C4 (amended): the benchmark builds `workerCount` contiguous shards of
width `max 1 ⌊files/workerCount⌋` each (clipped at the end of the list);
their concatenation is exactly the first `min length (workerCount · width)`
files, so when `workerCount` does not divide the file count the trailing
remainder files are assigned to no worker; the aggregate streaming RTF is
the average of the strictly positive worker RTF values only — worker results
with non-positive RTF contribute nothing (removing them does not change the
aggregate), and with no positive value the aggregate RTF stays 0. -/
theorem C4_partition_and_average_amended (files : List String) (n : ℕ)
    (ws : List PerformanceMetrics) (w : Int) :
    (partitionFiles files n).length = n ∧
    (partitionFiles files n).flatten =
      files.take (min files.length (n * max 1 (files.length / n))) ∧
    (aggregateConcurrent ws w).streaming_rtf =
      (aggregateConcurrent (ws.filter (fun x => decide (0 < x.streaming_rtf))) w).streaming_rtf ∧
    (aggregateConcurrent ws w).streaming_rtf =
      (if 0 < ((ws.map (fun x => x.streaming_rtf)).filter (fun r => decide (0 < r))).length
       then ((ws.map (fun x => x.streaming_rtf)).filter (fun r => decide (0 < r))).sum /
         (((ws.map (fun x => x.streaming_rtf)).filter (fun r => decide (0 < r))).length : ℚ)
       else 0) ∧
    (aggregateConcurrent ws w).concurrent_sessions = w := by
  refine ⟨by simp [partitionFiles], ?_, ?_, ?_, ?_⟩
  · unfold partitionFiles
    exact windows_join files (max 1 (files.length / n)) n
  · simp only [aggregateConcurrent, rtf_filter_map]
  · simp only [aggregateConcurrent]
    split <;> rfl
  · simp only [aggregateConcurrent]

/-- Floor arithmetic: the output size `⌊L · (t/f)⌋` computed by the resampler
is the natural division `L·t/f`. -/
theorem floor_mul_ratio (L t f : ℕ) :
    ⌊(L : ℚ) * ((t : ℚ) / (f : ℚ))⌋₊ = L * t / f := by
  rw [← mul_div_assoc, ← Nat.cast_mul, Nat.floor_div_nat, Nat.floor_natCast]

/-- The truncated source index `⌊i / (t/f)⌋` used by the resampler is the
natural division `i·f/t`. -/
theorem floor_div_ratio (i t f : ℕ) :
    ⌊(i : ℚ) / ((t : ℚ) / (f : ℚ))⌋₊ = i * f / t := by
  rw [div_div_eq_mul_div, ← Nat.cast_mul, Nat.floor_div_nat, Nat.floor_natCast]

/-- The loop body of the resampler written with natural-division index
arithmetic: output sample `i` blends the source samples at `⌊i·f/t⌋` and
`⌊i·f/t⌋+1` when both exist and clamps to the final source sample
otherwise. -/
theorem resampleSample_eq (audio : List ℚ) (f t i : ℕ) :
    resampleSample audio f t i =
      if i * f / t + 1 < audio.length then
        audio.getD (i * f / t) 0 *
            (1 - (((i * f : ℕ) : ℚ) / (t : ℚ) - ((i * f / t : ℕ) : ℚ))) +
          audio.getD (i * f / t + 1) 0 *
            (((i * f : ℕ) : ℚ) / (t : ℚ) - ((i * f / t : ℕ) : ℚ))
      else audio.getLastD 0 := by
  have hsrc : (i : ℚ) / ((t : ℚ) / (f : ℚ)) = ((i * f : ℕ) : ℚ) / (t : ℚ) := by
    rw [div_div_eq_mul_div]
    push_cast
    ring
  simp only [resampleSample, hsrc, floor_div_ratio]
  rw [← hsrc, floor_div_ratio]

/-- C6: with distinct positive rates, `ResampleAudio` produces exactly
`⌊len·to/from⌋` samples; output sample `i` is the linear blend of the two
source samples bracketing source position `i·from/to`, clamped to the last
source sample when the upper bracket is out of range; with equal rates the
input is returned unchanged. -/
theorem C6_resample_linear_interpolation (audio : List ℚ) (f t : ℕ)
    (hf : 0 < f) (ht : 0 < t) :
    (f ≠ t → (ResampleAudio audio f t).length = audio.length * t / f) ∧
    (f ≠ t → ∀ i, i < audio.length * t / f →
      (ResampleAudio audio f t).getD i 0 =
        (if i * f / t + 1 < audio.length then
          audio.getD (i * f / t) 0 *
              (1 - (((i * f : ℕ) : ℚ) / (t : ℚ) - ((i * f / t : ℕ) : ℚ))) +
            audio.getD (i * f / t + 1) 0 *
              (((i * f : ℕ) : ℚ) / (t : ℚ) - ((i * f / t : ℕ) : ℚ))
         else audio.getLastD 0)) ∧
    ResampleAudio audio f f = audio := by
  have hA : f ≠ t → (ResampleAudio audio f t).length = audio.length * t / f := by
    intro hft
    simp [ResampleAudio, hft, floor_mul_ratio]
  refine ⟨hA, ?_, by simp [ResampleAudio]⟩
  intro hft i hi
  have hlist : ResampleAudio audio f t =
      (List.range (audio.length * t / f)).map (resampleSample audio f t) := by
    simp [ResampleAudio, hft, floor_mul_ratio]
  rw [hlist]
  have hiN : i < ((List.range (audio.length * t / f)).map
      (resampleSample audio f t)).length := by
    simpa using hi
  rw [List.getD_eq_getElem _ _ hiN, List.getElem_map, List.getElem_range]
  exact resampleSample_eq audio f t i

/-- C6 witness: resampling the four-sample buffer [1, 2, 3, 4] from 2 Hz to
1 Hz keeps every other sample, and the length law instantiates to 2. -/
theorem C6_resample_linear_interpolation_witness :
    ((0 < 2 ∧ 0 < 1 ∧ (2 : ℕ) ≠ 1) ∧
      (ResampleAudio [1, 2, 3, 4] 2 1).length = [1, 2, 3, 4].length * 1 / 2) ∧
    ResampleAudio [1, 2, 3, 4] 2 2 = ([1, 2, 3, 4] : List ℚ) := by
  refine ⟨⟨by norm_num, ?_⟩, ?_⟩
  · exact (C6_resample_linear_interpolation [1, 2, 3, 4] 2 1
      (by norm_num) (by norm_num)).1 (by norm_num)
  · exact (C6_resample_linear_interpolation [1, 2, 3, 4] 2 2
      (by norm_num) (by norm_num)).2.2

/-- C5: when the streaming backend call throws, `StreamingRecognize` returns
the default (empty) result instead of propagating, increments the
total-request counter and leaves the success counter alone; when the call
succeeds with non-empty text, both counters are incremented. -/
theorem C5_streaming_failure_counters
    (gen : List ℚ → Bool → Cache → Except String (String × Cache))
    (chunk : List ℚ) (session : TwoPassSession) (is_final : Bool)
    (metrics : PerformanceMetrics) :
    (∀ e, gen chunk is_final session.streaming_cache = .error e →
      (StreamingRecognize gen true chunk session is_final metrics).result =
        ({} : RecognitionResult) ∧
      (StreamingRecognize gen true chunk session is_final metrics).metrics.total_requests =
        metrics.total_requests + 1 ∧
      (StreamingRecognize gen true chunk session is_final metrics).metrics.success_requests =
        metrics.success_requests ∧
      (StreamingRecognize gen true chunk session is_final metrics).session = session) ∧
    (∀ txt c, gen chunk is_final session.streaming_cache = .ok (txt, c) → txt ≠ "" →
      (StreamingRecognize gen true chunk session is_final metrics).result.text = txt ∧
      (StreamingRecognize gen true chunk session is_final metrics).metrics.total_requests =
        metrics.total_requests + 1 ∧
      (StreamingRecognize gen true chunk session is_final metrics).metrics.success_requests =
        metrics.success_requests + 1) := by
  constructor
  · intro e he
    simp [StreamingRecognize, he]
  · intro txt c hok htxt
    have hie : txt.isEmpty = false := by
      cases h : txt.isEmpty
      · rfl
      · exact absurd ((String.isEmpty_iff txt).mp h) htxt
    simp [StreamingRecognize, hok, RecognitionResult.IsEmpty, hie]

/-- C5 witness: a throwing backend at concrete inputs bumps only the total
counter; a succeeding backend with non-empty text bumps both. -/
theorem C5_streaming_failure_counters_witness :
    (genErr [] false ({} : TwoPassSession).streaming_cache = .error "boom" ∧
      (StreamingRecognize genErr true [] {} false {}).metrics.total_requests =
        ({} : PerformanceMetrics).total_requests + 1 ∧
      (StreamingRecognize genErr true [] {} false {}).metrics.success_requests =
        ({} : PerformanceMetrics).success_requests) ∧
    (genOk [] false ({} : TwoPassSession).streaming_cache =
        .ok ("hi", ([] : List (String × Nat))) ∧
      "hi" ≠ "" ∧
      (StreamingRecognize genOk true [] {} false {}).metrics.success_requests =
        ({} : PerformanceMetrics).success_requests + 1) := by
  have herr := (C5_streaming_failure_counters genErr [] {} false {}).1 "boom" rfl
  have hok := (C5_streaming_failure_counters genOk [] {} false {}).2 "hi"
    ([] : List (String × Nat)) rfl (by decide)
  exact ⟨⟨rfl, herr.2.1, herr.2.2.1⟩, ⟨rfl, by decide, hok.2.2⟩⟩

/-- A streaming result is never tagged offline: the success path builds the
result with the offline flag at its false default, and the failure path
returns the default result. -/
theorem streaming_result_offline_false
    (gen : List ℚ → Bool → Cache → Except String (String × Cache)) (init : Bool)
    (chunk : List ℚ) (session : TwoPassSession) (isf : Bool)
    (metrics : PerformanceMetrics) :
    (StreamingRecognize gen init chunk session isf metrics).result.is_offline_result =
      false := by
  unfold StreamingRecognize
  split
  · rfl
  · split
    · rfl
    · rfl

/-- `StreamingRecognize` only ever rewrites the session's streaming cache:
the VAD cache and the audio buffer pass through unchanged. -/
theorem streaming_session_frame
    (gen : List ℚ → Bool → Cache → Except String (String × Cache)) (init : Bool)
    (chunk : List ℚ) (session : TwoPassSession) (isf : Bool)
    (metrics : PerformanceMetrics) :
    (StreamingRecognize gen init chunk session isf metrics).session.vad_cache =
      session.vad_cache ∧
    (StreamingRecognize gen init chunk session isf metrics).session.audio_buffer =
      session.audio_buffer := by
  unfold StreamingRecognize
  split
  · exact ⟨rfl, rfl⟩
  · split
    · exact ⟨rfl, rfl⟩
    · constructor <;> (dsimp only; split <;> rfl)

/-- An offline result is never tagged online: both return paths leave the
online flag at its false default. -/
theorem offline_result_online_false (B : Backend) (cfg : Config) (init : Bool)
    (audio : List ℚ) (ev ep : Bool) (metrics : PerformanceMetrics) :
    (OfflineRecognize B cfg init audio ev ep metrics).result.is_online_result =
      false := by
  unfold OfflineRecognize
  split
  · rfl
  · dsimp only
    split <;> rfl

/-- The endpoint branch never modifies the results vector. -/
theorem twoPassVadBranch_results (vr : VADResult) (s : TwoPassSession)
    (res : List RecognitionResult) (m : PerformanceMetrics) (d : ℚ) :
    (twoPassVadBranch vr s res m d).results = res := by
  unfold twoPassVadBranch
  split
  · rfl
  · split <;> rfl

/-- `TwoPassRecognize` either leaves the results vector unchanged or appends
exactly the streaming result re-tagged as online. -/
theorem twoPass_results_eq (B : Backend) (init : Bool) (chunk : List ℚ)
    (session : TwoPassSession) (results : List RecognitionResult)
    (metrics : PerformanceMetrics) :
    (TwoPassRecognize B init chunk session results metrics).results = results ∨
    (TwoPassRecognize B init chunk session results metrics).results =
      results ++ [{ (StreamingRecognize B.streamingGenerate init chunk
          { session with audio_buffer := session.audio_buffer ++ chunk } false
          metrics).result with is_online_result := true }] := by
  unfold TwoPassRecognize
  split
  · exact Or.inl rfl
  · dsimp only
    rw [twoPassVadBranch_results]
    split
    · exact Or.inr rfl
    · exact Or.inl rfl

/-- C8: no result produced by `StreamingRecognize`, `OfflineRecognize` or
`TwoPassRecognize` (including the detached refinement result of the two-pass
endpoint branch) ever carries both provenance flags `is_online_result` and
`is_offline_result`. -/
theorem C8_provenance_flags_exclusive (B : Backend) (cfg : Config)
    (init : Bool) (chunk audio seg : List ℚ) (session s : TwoPassSession)
    (isf ev ep : Bool) (metrics m : PerformanceMetrics)
    (results : List RecognitionResult) :
    flagsOk (StreamingRecognize B.streamingGenerate init chunk session isf
      metrics).result ∧
    flagsOk (OfflineRecognize B cfg init audio ev ep metrics).result ∧
    ((∀ r ∈ results, flagsOk r) →
      ∀ r ∈ (TwoPassRecognize B init chunk session results metrics).results,
        flagsOk r) ∧
    (∀ r, (DetachedRefineTask B cfg init seg s m).refined = some r →
      flagsOk r) := by
  refine ⟨?_, ?_, ?_, ?_⟩
  · intro hc
    rw [streaming_result_offline_false] at hc
    exact Bool.false_ne_true hc.2
  · intro hc
    rw [offline_result_online_false] at hc
    exact Bool.false_ne_true hc.1
  · intro hres r hr
    rcases twoPass_results_eq B init chunk session results metrics with h | h
    · rw [h] at hr
      exact hres r hr
    · rw [h] at hr
      rcases List.mem_append.mp hr with h1 | h1
      · exact hres r h1
      · rw [List.mem_singleton.mp h1]
        intro hc
        have : ({ (StreamingRecognize B.streamingGenerate init chunk
            { session with audio_buffer := session.audio_buffer ++ chunk } false
            metrics).result with is_online_result := true }).is_offline_result =
            false := by
          simpa using streaming_result_offline_false B.streamingGenerate init
            chunk { session with audio_buffer := session.audio_buffer ++ chunk }
            false metrics
        rw [this] at hc
        exact Bool.false_ne_true hc.2
  · intro r hr
    unfold DetachedRefineTask at hr
    dsimp only at hr
    split at hr
    · rw [← Option.some.injEq _ r |>.mp hr]
      intro hc
      have : ({ (OfflineRecognize B cfg init seg false true m).result with
          is_offline_result := true, is_final := true }).is_online_result =
          false := by
        simpa using offline_result_online_false B cfg init seg false true m
      rw [this] at hc
      exact Bool.false_ne_true hc.1
    · exact absurd hr (Option.noConfusion)

/-- C8 witness: concrete instances — the streaming result, every result
emitted by a concrete two-pass call, and the concrete detached refinement
result all keep the two provenance flags exclusive. -/
theorem C8_provenance_flags_exclusive_witness :
    flagsOk (StreamingRecognize B0.streamingGenerate true [] {} false {}).result ∧
    (∀ r ∈ (TwoPassRecognize B0 true [] {} [] {}).results, flagsOk r) ∧
    ((DetachedRefineTask B0 cfg0 true [] {} {}).refined = some refinedR0 ∧
      flagsOk refinedR0) := by
  have main := C8_provenance_flags_exclusive B0 cfg0 true [] [] [] {} {} false
    false false {} {} []
  refine ⟨main.1, main.2.2.1 (by simp), ?_, main.2.2.2 _ ?_⟩
  · rfl
  · rfl

/-- A failing offline backend is caught inside `OfflineRecognize`
(funasr_engine.cpp:424-428): the default result comes back and the metrics
are left untouched (the early return skips the update block). -/
theorem offline_err_result (B : Backend) (e : String) (cfg : Config)
    (init : Bool) (audio : List ℚ) (ev ep : Bool) (m : PerformanceMetrics) :
    (OfflineRecognize (errBackend B e) cfg init audio ev ep m).result =
      ({} : RecognitionResult) ∧
    (OfflineRecognize (errBackend B e) cfg init audio ev ep m).metrics = m := by
  unfold OfflineRecognize
  split
  · exact ⟨rfl, rfl⟩
  · exact ⟨rfl, rfl⟩

/-- Synchronous endpoint behaviour of the two-pass orchestrator: with a VAD
result signalling speech end, the speaking flag is cleared and the detached
task receives the whole accumulated buffer including the current chunk. -/
theorem twoPass_endpoint_core (B : Backend) (chunk : List ℚ)
    (session : TwoPassSession) (results : List RecognitionResult)
    (metrics : PerformanceMetrics)
    (h : (DetectVoiceActivity B.vadGenerate chunk
      session.vad_cache).1.speech_end_ms ≠ -1) :
    (TwoPassRecognize B true chunk session results metrics).session.is_speaking =
      false ∧
    (TwoPassRecognize B true chunk session results metrics).refineTask =
      some (session.audio_buffer ++ chunk) := by
  have hvc := (streaming_session_frame B.streamingGenerate true chunk
    { session with audio_buffer := session.audio_buffer ++ chunk } false metrics).1
  have hab := (streaming_session_frame B.streamingGenerate true chunk
    { session with audio_buffer := session.audio_buffer ++ chunk } false metrics).2
  dsimp only at hvc hab
  unfold TwoPassRecognize
  rw [if_neg (by simp)]
  dsimp only
  rw [hvc]
  unfold twoPassVadBranch
  rw [if_pos h]
  exact ⟨rfl, by dsimp only; rw [hab]⟩

/-- C1: whenever the VAD result of a two-pass chunk has
`speech_end_ms != -1`, the session's speaking flag is cleared and a detached
task is launched with a snapshot of the full accumulated audio buffer; the
task body always executes `Reset()` on the session — also when the offline
backend throws, because that failure is caught inside `OfflineRecognize`
within the task (the task then produces no refined result); any refined
result it does produce is tagged `is_offline_result = is_final = true`. -/
theorem C1_endpoint_detached_refinement (B : Backend) (cfg : Config)
    (chunk : List ℚ) (session : TwoPassSession)
    (results : List RecognitionResult) (metrics : PerformanceMetrics)
    (h : (DetectVoiceActivity B.vadGenerate chunk
      session.vad_cache).1.speech_end_ms ≠ -1) :
    (TwoPassRecognize B true chunk session results metrics).session.is_speaking =
      false ∧
    (TwoPassRecognize B true chunk session results metrics).refineTask =
      some (session.audio_buffer ++ chunk) ∧
    (∀ init seg s m,
      (DetachedRefineTask B cfg init seg s m).session = s.Reset) ∧
    (∀ e init seg s m,
      (DetachedRefineTask (errBackend B e) cfg init seg s m).session = s.Reset ∧
      (DetachedRefineTask (errBackend B e) cfg init seg s m).refined = none ∧
      (DetachedRefineTask (errBackend B e) cfg init seg s m).metrics = m) ∧
    (∀ init seg s m r,
      (DetachedRefineTask B cfg init seg s m).refined = some r →
      r.is_offline_result = true ∧ r.is_final = true) := by
  obtain ⟨h1, h2⟩ := twoPass_endpoint_core B chunk session results metrics h
  refine ⟨h1, h2, ?_, ?_, ?_⟩
  · intro init seg s m
    unfold DetachedRefineTask
    dsimp only
    split <;> rfl
  · intro e init seg s m
    have hres := offline_err_result B e cfg init seg false true m
    refine ⟨?_, ?_, ?_⟩
    · unfold DetachedRefineTask
      dsimp only
      split <;> rfl
    · unfold DetachedRefineTask
      dsimp only
      rw [hres.1]
      rfl
    · unfold DetachedRefineTask
      dsimp only
      rw [hres.1]
      simpa using hres.2
  · intro init seg s m r hr
    unfold DetachedRefineTask at hr
    dsimp only at hr
    split at hr
    · rw [← Option.some.injEq _ r |>.mp hr]
      exact ⟨rfl, rfl⟩
    · exact absurd hr Option.noConfusion

/-- C1 witness: a concrete backend whose VAD reports a speech end at a
concrete chunk — the flag clears, the snapshot is the appended buffer, and a
throwing offline backend still ends in a session reset with no refined
result. -/
theorem C1_endpoint_detached_refinement_witness :
    (DetectVoiceActivity B0.vadGenerate [2]
      ({} : TwoPassSession).vad_cache).1.speech_end_ms ≠ -1 ∧
    (TwoPassRecognize B0 true [2] {} [] {}).session.is_speaking = false ∧
    (TwoPassRecognize B0 true [2] {} [] {}).refineTask =
      some (({} : TwoPassSession).audio_buffer ++ [2]) ∧
    (DetachedRefineTask (errBackend B0 "x") cfg0 true [2] {} {}).session =
      ({} : TwoPassSession).Reset ∧
    (DetachedRefineTask (errBackend B0 "x") cfg0 true [2] {} {}).refined = none := by
  have h : (DetectVoiceActivity B0.vadGenerate [2]
      ({} : TwoPassSession).vad_cache).1.speech_end_ms ≠ -1 := by decide
  have main := C1_endpoint_detached_refinement B0 cfg0 [2] {} [] {} h
  have herr := main.2.2.2.1 "x" true [2] {} {}
  exact ⟨h, main.1, main.2.1, herr.1, herr.2.1⟩

/-- C2 (the code evaluated at the claim's triggering input):
`OfflineRecognize` overwrites `enable_vad` with false at entry
(funasr_engine.cpp:357), so even for a buffer longer than five seconds with
`enable_vad = true` and a VAD backend that would return two clean segments,
the VAD model is invoked zero times (the claim requires exactly one
invocation) and the returned text is the whole-buffer recognition, not a
join of per-segment transcriptions. -/
theorem C2_offline_vad_gate_dead :
    16000 * 5 < longAudio.length ∧
    B0.vadGenerate longAudio ([] : List (String × Nat)) =
      .ok ([(0, 1000), (1500, 2000)], ([] : List (String × Nat))) ∧
    (OfflineRecognize B0 cfg0 true longAudio true false {}).vadCalls = 0 ∧
    (OfflineRecognize B0 cfg0 true longAudio true false {}).result.text = "whole" := by
  refine ⟨?_, rfl, rfl, rfl⟩
  norm_num [longAudio, List.length_replicate]

end FunASR
